import Mathlib

/-!
# daemon-skeleton: the control plane of `src/application.c`

A shallow embedding of `main`, `main_loop` and `working_dir`.  The program is
a sequence of system and library calls whose results come from the operating
system.  Each function is embedded as a total function of the results the
environment gives to its calls, and returns the ordered record of the calls
it made (the trace) together with its own result.

Descriptors, process ids, times and return values are C `int`/`time_t`
values, embedded as `Int`; no arithmetic of the program can overflow for
descriptor values (`highest_fd + 1` is the only arithmetic performed).
-/

namespace DaemonSkeleton

/-! ## Constants and data -/

/-- Exit status `EXIT_SUCCESS` of `<stdlib.h>`. -/
def EXIT_SUCCESS : Int := 0

/-- Exit status `EXIT_FAILURE` of `<stdlib.h>`. -/
def EXIT_FAILURE : Int := 1

/-- Modelled from the spec: the enumerator `MSG_CTL_NONE` of `enum message_type`, whose
declaration is in a header that is not part of the sources (`NONE=0`). -/
def MSG_CTL_NONE : Int := 0

/-- Modelled from the spec: the enumerator `MSG_CTL_STATUS` of `enum message_type`
(`STATUS=1`). -/
def MSG_CTL_STATUS : Int := 1

/-- Modelled from the spec: the enumerator `MSG_CTL_QUIT` of `enum message_type`
(`QUIT=2`). -/
def MSG_CTL_QUIT : Int := 2

/-- The macro `MAX(left, right)` of `application.c`. -/
def MAX (left right : Int) : Int := if left ≥ right then left else right

/-- Modelled from the spec: `struct application`, declared in `application.h` (not part of
the sources); the three fields are the ones `main` assigns. -/
structure application where
  process_id : Int
  started_at : Int
  control_socket : Int
deriving DecidableEq, Repr

/-- Constants of headers that are not part of the sources, taken as parameters. -/
structure Consts where
  /-- The value of `sizeof(struct application)`. -/
  sizeof_application : Nat
  /-- The value of `MAX_PENDING_CONNECTIONS`. -/
  MAX_PENDING_CONNECTIONS : Int
deriving DecidableEq, Repr

/-- The two objects obtained from `malloc`. -/
inductive Allocation
  | working_dir
  | application
deriving DecidableEq, Repr

/-- The messages handed to `log_error` and `log_info`, in source order. -/
inductive LogMessage
  /-- The text "Unable to daemonize". -/
  | unable_to_daemonize
  /-- The text "Unable to remove previous control socket". -/
  | unable_to_remove_previous_control_socket
  /-- The text "Unable to allocate enough memory to hold information about this instance". -/
  | unable_to_allocate_application
  /-- The text "Unable to remove control socket". -/
  | unable_to_remove_control_socket
  /-- The text "Unable to close control socket". -/
  | unable_to_close_control_socket
  /-- The text "Unable to listen on control socket". -/
  | unable_to_listen
  /-- The text "Unable to wait for data". -/
  | unable_to_wait
  /-- The text "Unable to accept new connection". -/
  | unable_to_accept
  /-- The text "Shutting down". -/
  | shutting_down
  /-- The text "Unable to allocate enough memory to hold path to working directory". -/
  | unable_to_allocate_working_dir
deriving DecidableEq, Repr

/-- One call made by the program, with its arguments and the result it got. -/
inductive Event
  | time (r : Int)
  | init_log
  | close_log
  | malloc (what : Allocation) (ok : Bool)
  | free (what : Allocation)
  | daemonize (r : Int)
  | access (r : Int)
  | unlink (r : Int)
  | getpid (r : Int)
  | init_control_socket (r : Int)
  | listen (fd backlog r : Int)
  | select (nfds r : Int)
  | accept (fd r : Int)
  | read (fd r : Int)
  | write (fd : Int) (buf : application) (count : Nat) (r : Int)
  | close (fd r : Int)
  | log_error (m : LogMessage)
  | log_info (m : LogMessage)
  | exit (code : Int)
deriving DecidableEq, Repr

/-- The results the environment gives to the calls of one pass through the body
of the `for (;;)` of `main_loop`.  A result is used only if the pass makes the
call. -/
structure Wakeup where
  /-- Return value of `select`. -/
  select_ret : Int
  /-- Whether `FD_ISSET(application->control_socket, &fds)` holds after `select`. -/
  fd_isset : Bool
  /-- Return value of `accept`. -/
  accept_ret : Int
  /-- Return value of `read`. -/
  read_ret : Int
  /-- The value `msg_type` holds after a `read` that stored data. -/
  read_data : Int
  /-- Return value of `write`. -/
  write_ret : Int
  /-- Return value of `close` on the connection. -/
  close_ret : Int
deriving DecidableEq, Repr

/-- How far `main_loop` got on the wakeups it was given. -/
inductive LoopResult
  /-- The call `main_loop` returned `code`. -/
  | returned (code : Int)
  /-- The loop is blocked in `select(nfds, ...)`: no further wakeup. -/
  | waiting (nfds : Int)
deriving DecidableEq, Repr

/-- A run of `main_loop`: the record `*application` afterwards, the calls made,
and the result. -/
structure Run where
  app : application
  trace : List Event
  result : LoopResult
deriving DecidableEq, Repr

/-- The run `r` preceded by the calls `es`. -/
def Run.after (es : List Event) (r : Run) : Run :=
  ⟨r.app, es ++ r.trace, r.result⟩

/-! ## `main_loop` -/

/-- The value of `msg_type` after `msg_type = MSG_CTL_NONE; read(connection, &msg_type, ...)`:
`read` stores into the buffer only when it returns a positive count. -/
def msg_type_after_read (w : Wakeup) : Int :=
  if w.read_ret > 0 then w.read_data else MSG_CTL_NONE

/-- One pass through the body of the `for (;;)` in `main_loop` (lines 135-173),
entered with the given `highest_fd`: the calls made, and `some code` when the
pass executes `return code`. -/
def loop_body (k : Consts) (app : application) (highest_fd : Int) (w : Wakeup) :
    List Event × Option Int :=
  let highest_fd := MAX highest_fd app.control_socket
  let sel := Event.select (highest_fd + 1) w.select_ret
  if w.select_ret = -1 then
    ([sel, .log_error .unable_to_wait], some EXIT_FAILURE)
  else if w.fd_isset then
    let connection := w.accept_ret
    let acc := Event.accept app.control_socket connection
    if connection = -1 then
      ([sel, acc, .log_error .unable_to_accept], some EXIT_FAILURE)
    else
      let msg_type := msg_type_after_read w
      let rd := Event.read connection w.read_ret
      if w.read_ret ≠ 0 then
        if msg_type = MSG_CTL_NONE then
          ([sel, acc, rd, .close connection w.close_ret], none)
        else if msg_type = MSG_CTL_STATUS then
          ([sel, acc, rd, .write connection app k.sizeof_application w.write_ret,
            .close connection w.close_ret], none)
        else if msg_type = MSG_CTL_QUIT then
          ([sel, acc, rd, .log_info .shutting_down, .close connection w.close_ret],
            some EXIT_SUCCESS)
        else
          ([sel, acc, rd, .close connection w.close_ret], none)
      else
        ([sel, acc, rd, .close connection w.close_ret], none)
  else
    ([sel], none)

/-- The `for (;;)` of `main_loop`, entered with the given `highest_fd`, run on
the wakeups the environment delivers.  With no wakeup left the loop has done
`FD_ZERO`, `FD_SET` and the `MAX` assignment, and is blocked in `select`. -/
def main_loop_for (k : Consts) (app : application) : Int → List Wakeup → Run
  | highest_fd, [] => ⟨app, [], .waiting (MAX highest_fd app.control_socket + 1)⟩
  | highest_fd, w :: ws =>
    match loop_body k app highest_fd w with
    | (es, some code) => ⟨app, es, .returned code⟩
    | (es, none) =>
      (main_loop_for k app (MAX highest_fd app.control_socket) ws).after es

/-- The function `main_loop(application)`: `listen_ret` is the result of `listen`,
`ws` the wakeups of the loop. -/
def main_loop (k : Consts) (app : application) (listen_ret : Int)
    (ws : List Wakeup) : Run :=
  let l := Event.listen app.control_socket k.MAX_PENDING_CONNECTIONS listen_ret
  if listen_ret = -1 then
    ⟨app, [l, .log_error .unable_to_listen], .returned EXIT_FAILURE⟩
  else
    (main_loop_for k app 0 ws).after [l]

/-! ## `main` -/

/-- The results the environment gives to the calls of `main`. -/
structure Env where
  /-- Return value of `time(NULL)`. -/
  time_ret : Int
  /-- Whether the `malloc` of `working_dir` returned a non-null pointer. -/
  working_dir_malloc_ok : Bool
  /-- Return value of `daemonize(cwd)`. -/
  daemonize_ret : Int
  /-- Return value of `access(APPLICATION_CONTROL_SOCKET, F_OK)`. -/
  access_ret : Int
  /-- Return value of the `unlink` at startup (line 68). -/
  unlink_stale_ret : Int
  /-- Whether the `malloc` of the application record returned a non-null pointer. -/
  malloc_ok : Bool
  /-- Return value of `getpid()`. -/
  getpid_ret : Int
  /-- Return value of `init_control_socket(APPLICATION_CONTROL_SOCKET, bind)`. -/
  init_control_socket_ret : Int
  /-- Return value of `listen` in `main_loop`. -/
  listen_ret : Int
  /-- The wakeups of the loop of `main_loop`. -/
  wakeups : List Wakeup
  /-- Return value of the `unlink` after `main_loop` (line 93). -/
  unlink_ret : Int
  /-- Return value of the `close` of the control socket (line 99 or line 111). -/
  close_ret : Int
deriving DecidableEq, Repr

/-- An execution of `main`: the calls made, and the status passed to `exit`
(`none` while the process is blocked in the `select` of `main_loop`). -/
structure Exec where
  trace : List Event
  exit_code : Option Int
deriving DecidableEq, Repr

/-- The code from the label `error_out` on. -/
def error_out : List Event :=
  [.free .working_dir, .close_log, .exit EXIT_FAILURE]

/-- The code from the label `free_error_out` on. -/
def free_error_out : List Event :=
  .free .application :: error_out

/-- The code from the label `close_error_out` on. -/
def close_error_out (control_socket close_ret : Int) : List Event :=
  .close control_socket close_ret :: free_error_out

/-- The application record `main` hands to `main_loop`: zeroed by `memset`, then
`process_id`, `started_at` and `control_socket` assigned. -/
def initial_application (env : Env) : application :=
  ⟨env.getpid_ret, env.time_ret, env.init_control_socket_ret⟩

/-- The calls of `main` up to and including `daemonize`, when `working_dir`
returns. -/
def startup_trace (env : Env) : List Event :=
  [.time env.time_ret, .init_log, .malloc .working_dir true,
    .daemonize env.daemonize_ret]

/-- The calls of lines 67-68: `access`, and `unlink` when the path exists. -/
def stale_trace (env : Env) : List Event :=
  if env.access_ret = 0 then [.access env.access_ret, .unlink env.unlink_stale_ret]
  else [.access env.access_ret]

/-- The calls of lines 74-85 when `malloc` succeeds. -/
def allocate_trace (env : Env) : List Event :=
  [.malloc .application true, .getpid env.getpid_ret,
    .init_control_socket env.init_control_socket_ret]

/-- The code of `main` after `main_loop` has returned `result` (lines 93-117). -/
def teardown (env : Env) (app : application) (result : Int) : Exec :=
  if env.unlink_ret = -1 then
    ⟨[.unlink env.unlink_ret, .log_error .unable_to_remove_control_socket]
        ++ close_error_out app.control_socket env.close_ret, some EXIT_FAILURE⟩
  else if env.close_ret = -1 then
    ⟨[.unlink env.unlink_ret, .close app.control_socket env.close_ret,
        .log_error .unable_to_close_control_socket] ++ free_error_out,
      some EXIT_FAILURE⟩
  else
    ⟨[.unlink env.unlink_ret, .close app.control_socket env.close_ret,
        .close_log, .free .working_dir, .free .application, .exit result],
      some result⟩

/-- The function `main`, with `working_dir` inlined at its call. -/
def main (k : Consts) (env : Env) : Exec :=
  if env.working_dir_malloc_ok = false then
    ⟨[.time env.time_ret, .init_log, .malloc .working_dir false,
        .log_error .unable_to_allocate_working_dir, .close_log,
        .exit EXIT_FAILURE], some EXIT_FAILURE⟩
  else if env.daemonize_ret = -1 then
    ⟨startup_trace env ++ .log_error .unable_to_daemonize :: error_out,
      some EXIT_FAILURE⟩
  else if env.daemonize_ret ≠ 0 then
    ⟨startup_trace env ++ [.close_log, .free .working_dir, .exit EXIT_SUCCESS],
      some EXIT_SUCCESS⟩
  else if env.access_ret = 0 ∧ env.unlink_stale_ret = -1 then
    ⟨startup_trace env ++ stale_trace env ++
        .log_error .unable_to_remove_previous_control_socket :: error_out,
      some EXIT_FAILURE⟩
  else if env.malloc_ok = false then
    ⟨startup_trace env ++ stale_trace env ++
        [.malloc .application false, .log_error .unable_to_allocate_application]
        ++ error_out,
      some EXIT_FAILURE⟩
  else if env.init_control_socket_ret = -1 then
    ⟨startup_trace env ++ stale_trace env ++ allocate_trace env ++ free_error_out,
      some EXIT_FAILURE⟩
  else
    let run := main_loop k (initial_application env) env.listen_ret env.wakeups
    let before := startup_trace env ++ stale_trace env ++ allocate_trace env
    match run.result with
    | .waiting _ => ⟨before ++ run.trace, none⟩
    | .returned result =>
      let down := teardown env run.app result
      ⟨before ++ run.trace ++ down.trace, down.exit_code⟩

/-! ## Vocabulary of the statements -/

/-- The wakeup `w` is an accepted connection on which `read` stores the command
`m`: `select` and `accept` succeed, the control socket is readable, and `read`
returns a positive count leaving `m` in `msg_type`. -/
def delivers (w : Wakeup) (m : Int) : Prop :=
  w.select_ret ≠ -1 ∧ w.fd_isset = true ∧ w.accept_ret ≠ -1 ∧
    w.read_ret > 0 ∧ w.read_data = m

instance (w : Wakeup) (m : Int) : Decidable (delivers w m) := by
  delta delivers; infer_instance

/-- The calls of a pass that accepts connection `w.accept_ret` and neither
writes nor returns: `select`, `accept`, `read`, `close`. -/
def quiet_pass (app : application) (w : Wakeup) : List Event :=
  [.select (MAX 0 app.control_socket + 1) w.select_ret,
   .accept app.control_socket w.accept_ret,
   .read w.accept_ret w.read_ret,
   .close w.accept_ret w.close_ret]

/-- Descriptor discipline of a trace, read from left to right with the accepted
connection that is still open (`conn`): a successful `accept` opens its result
and needs no connection open; a `close` needs exactly that connection open and
closes it; a `select` needs no connection open; at the end of the trace no
connection is open. -/
def closes_each_connection_once : Option Int → List Event → Bool
  | conn, [] => conn.isNone
  | none, .accept _ c :: es =>
    if c = -1 then closes_each_connection_once none es
    else closes_each_connection_once (some c) es
  | some _, .accept _ _ :: _ => false
  | some c, .close fd _ :: es => decide (fd = c) && closes_each_connection_once none es
  | none, .close _ _ :: _ => false
  | some _, .select _ _ :: _ => false
  | conn, _ :: es => closes_each_connection_once conn es

/-- The pass on wakeup `w` does not return: `select` succeeds, `accept` succeeds
if it is called, and the connection does not deliver QUIT. -/
def continues (w : Wakeup) : Prop :=
  w.select_ret ≠ -1 ∧ (w.fd_isset = true → w.accept_ret ≠ -1) ∧
    ¬ delivers w MSG_CTL_QUIT

instance (w : Wakeup) : Decidable (continues w) := by
  delta continues; infer_instance

/-- The call `main_loop` ends on a QUIT command: `listen` succeeds, and after
wakeups on which the loop continues comes a connection that delivers QUIT. -/
def ended_on_QUIT (listen_ret : Int) (ws : List Wakeup) : Prop :=
  listen_ret ≠ -1 ∧
    ∃ pre q post, ws = pre ++ q :: post ∧ (∀ v ∈ pre, continues v) ∧
      delivers q MSG_CTL_QUIT

/-- The removal of a stale control socket fails: the path exists and `unlink`
returns -1 (line 67-68). -/
def stale_removal_fails (env : Env) : Prop :=
  env.access_ret = 0 ∧ env.unlink_stale_ret = -1

instance (env : Env) : Decidable (stale_removal_fails env) := by
  delta stale_removal_fails; infer_instance

/-- The conditions under which `main` reaches the call of `main_loop`:
`working_dir` returns, `daemonize` returns 0 (the child), the stale socket
removal does not fail, `malloc` succeeds and `init_control_socket` does not
return -1. -/
def enters_main_loop (env : Env) : Prop :=
  env.working_dir_malloc_ok = true ∧ env.daemonize_ret = 0 ∧
    ¬ stale_removal_fails env ∧ env.malloc_ok = true ∧
    env.init_control_socket_ret ≠ -1

instance (env : Env) : Decidable (enters_main_loop env) := by
  delta enters_main_loop; infer_instance

/-- The calls `unlink` and `close`. -/
def Event.is_unlink_or_close : Event → Bool
  | .unlink _ => true
  | .close _ _ => true
  | _ => false

/-- The application record is allocated when the call `e` is first made: the
successful `malloc` of the record is among the calls before `e`. -/
def record_allocated_before (e : Event) (tr : List Event) : Bool :=
  (tr.takeWhile (fun x => decide (x ≠ e))).contains (.malloc .application true)

/-- The failing results of the calls whose result the program tests: a null
`malloc`, and -1 from `daemonize`, `unlink`, `init_control_socket`, `listen`,
`select`, `accept`, and from `close` on the control socket descriptor. -/
def checked_failure (control_socket : Int) : Event → Bool
  | .malloc _ ok => !ok
  | .daemonize r => decide (r = -1)
  | .unlink r => decide (r = -1)
  | .init_control_socket r => decide (r = -1)
  | .listen _ _ r => decide (r = -1)
  | .select _ r => decide (r = -1)
  | .accept _ r => decide (r = -1)
  | .close fd r => decide (fd = control_socket) && decide (r = -1)
  | _ => false

/-- The calls by which the loop waits for and services a connection: `select`,
`accept`, `read`, `write`. -/
def serves : Event → Bool
  | .select _ _ => true
  | .accept _ _ => true
  | .read _ _ => true
  | .write _ _ _ _ => true
  | _ => false

/-- No call that services a connection follows a checked failure in the trace. -/
def halts_after_failure (control_socket : Int) : List Event → Bool
  | [] => true
  | e :: es =>
    (!checked_failure control_socket e || es.all (fun x => !serves x)) &&
      halts_after_failure control_socket es

/-- A wakeup delivering QUIT on connection 7. -/
def quit_wakeup : Wakeup := ⟨1, true, 7, 4, MSG_CTL_QUIT, 0, 0⟩

/-- A wakeup delivering STATUS on connection 6; its `write` returns 24. -/
def status_wakeup : Wakeup := ⟨1, true, 6, 4, MSG_CTL_STATUS, 24, 0⟩

/-- A wakeup delivering NONE on connection 5. -/
def none_wakeup : Wakeup := ⟨1, true, 5, 4, MSG_CTL_NONE, 0, 0⟩

/-- Sample constants: a 24-byte record and a backlog of 5. -/
def sample_consts : Consts := ⟨24, 5⟩

/-- A sample record. -/
def sample_application : application := ⟨4242, 1700000000, 3⟩

/-- A run in the child where every call succeeds and the clients send NONE,
STATUS, QUIT. -/
def clean_env : Env :=
  { time_ret := 1700000000, working_dir_malloc_ok := true, daemonize_ret := 0,
    access_ret := 0, unlink_stale_ret := 0, malloc_ok := true, getpid_ret := 4242,
    init_control_socket_ret := 3, listen_ret := 0,
    wakeups := [none_wakeup, status_wakeup, quit_wakeup],
    unlink_ret := 0, close_ret := 0 }

/-- A run in the child where `init_control_socket` returns -1. -/
def bind_failure_env : Env :=
  { clean_env with init_control_socket_ret := -1 }

/-- A run in the child where the stale control socket cannot be removed. -/
def stale_failure_env : Env :=
  { clean_env with unlink_stale_ret := -1 }

/-- A run in the child where `read` returns -1 on the first connection, the
`write` of the STATUS reply returns -1 on the second, the `close` of the third
connection returns -1, and the fourth connection delivers QUIT. -/
def unchecked_failures_env : Env :=
  { clean_env with
    wakeups := [⟨1, true, 5, -1, 0, 0, 0⟩, ⟨1, true, 6, 4, MSG_CTL_STATUS, -1, 0⟩,
      ⟨1, true, 8, 4, MSG_CTL_NONE, 0, -1⟩, quit_wakeup] }

/-- A run in the child where `select` returns -1 after one NONE connection. -/
def select_failure_env : Env :=
  { clean_env with wakeups := [none_wakeup, ⟨-1, false, 0, 0, 0, 0, 0⟩, quit_wakeup] }

/-- A clean QUIT followed by a failing `unlink` of the control socket path. -/
def unlink_failure_env : Env :=
  { clean_env with unlink_ret := -1 }

/-! ## The loop: composition lemmas -/

theorem MAX_idem (h c : Int) : MAX (MAX h c) c = MAX h c := by
  unfold MAX
  split_ifs <;> omega

theorem loop_body_MAX (k : Consts) (app : application) (hf : Int) (w : Wakeup) :
    loop_body k app (MAX hf app.control_socket) w = loop_body k app hf w := by
  simp only [loop_body, MAX_idem]

theorem main_loop_for_MAX (k : Consts) (app : application) (hf : Int)
    (ws : List Wakeup) :
    main_loop_for k app (MAX hf app.control_socket) ws = main_loop_for k app hf ws := by
  cases ws with
  | nil => simp only [main_loop_for, MAX_idem]
  | cons w ws => simp only [main_loop_for, loop_body_MAX, MAX_idem]

theorem main_loop_for_cons_none (k : Consts) (app : application) (hf : Int)
    (w : Wakeup) (ws : List Wakeup) (es : List Event)
    (hb : loop_body k app hf w = (es, none)) :
    main_loop_for k app hf (w :: ws) = (main_loop_for k app hf ws).after es := by
  simp only [main_loop_for, hb, main_loop_for_MAX]

theorem main_loop_for_cons_some (k : Consts) (app : application) (hf : Int)
    (w : Wakeup) (ws : List Wakeup) (es : List Event) (code : Int)
    (hb : loop_body k app hf w = (es, some code)) :
    main_loop_for k app hf (w :: ws) = ⟨app, es, .returned code⟩ := by
  simp only [main_loop_for, hb]

theorem main_loop_for_app (k : Consts) (app : application) (hf : Int)
    (ws : List Wakeup) : (main_loop_for k app hf ws).app = app := by
  induction ws with
  | nil => rfl
  | cons w ws ih =>
    rcases hb : loop_body k app hf w with ⟨es, _ | code⟩
    · rw [main_loop_for_cons_none k app hf w ws es hb]
      simpa [Run.after] using ih
    · rw [main_loop_for_cons_some k app hf w ws es code hb]

theorem main_loop_for_append_waiting (k : Consts) (app : application) (hf : Int)
    (pre ws : List Wakeup) (n : Int)
    (h : (main_loop_for k app hf pre).result = .waiting n) :
    main_loop_for k app hf (pre ++ ws)
      = (main_loop_for k app hf ws).after (main_loop_for k app hf pre).trace := by
  induction pre with
  | nil => simp [main_loop_for, Run.after]
  | cons w pre ih =>
    rcases hb : loop_body k app hf w with ⟨es, _ | code⟩
    · rw [main_loop_for_cons_none k app hf w pre es hb] at h ⊢
      rw [List.cons_append, main_loop_for_cons_none k app hf w (pre ++ ws) es hb,
        ih (by simpa [Run.after] using h)]
      simp [Run.after]
    · rw [main_loop_for_cons_some k app hf w pre es code hb] at h
      simp at h

theorem main_loop_for_append_returned (k : Consts) (app : application) (hf : Int)
    (pre ws : List Wakeup) (code : Int)
    (h : (main_loop_for k app hf pre).result = .returned code) :
    main_loop_for k app hf (pre ++ ws) = main_loop_for k app hf pre := by
  induction pre with
  | nil => simp [main_loop_for] at h
  | cons w pre ih =>
    rcases hb : loop_body k app hf w with ⟨es, _ | c⟩
    · rw [main_loop_for_cons_none k app hf w pre es hb] at h ⊢
      rw [List.cons_append, main_loop_for_cons_none k app hf w (pre ++ ws) es hb,
        ih (by simpa [Run.after] using h)]
    · rw [List.cons_append, main_loop_for_cons_some k app hf w pre es c hb,
        main_loop_for_cons_some k app hf w (pre ++ ws) es c hb]

theorem main_loop_append_waiting (k : Consts) (app : application) (listen_ret : Int)
    (pre ws : List Wakeup) (n : Int)
    (h : (main_loop k app listen_ret pre).result = .waiting n) :
    main_loop k app listen_ret (pre ++ ws)
      = (main_loop_for k app 0 ws).after (main_loop k app listen_ret pre).trace := by
  unfold main_loop at h ⊢
  by_cases hl : listen_ret = -1
  · simp [hl] at h
  · simp only [hl, if_false, Run.after] at h ⊢
    rw [main_loop_for_append_waiting k app 0 pre ws n h]
    simp [Run.after]

/-- Connections that deliver NONE or STATUS leave the loop blocked in `select`. -/
theorem main_loop_for_waiting_of_delivers (k : Consts) (app : application) (hf : Int)
    (pre : List Wakeup)
    (hpre : ∀ v ∈ pre, delivers v MSG_CTL_NONE ∨ delivers v MSG_CTL_STATUS) :
    (main_loop_for k app hf pre).result
      = .waiting (MAX hf app.control_socket + 1) := by
  induction pre generalizing hf with
  | nil => rfl
  | cons w pre ih =>
    have hw := hpre w (List.mem_cons_self _ _)
    have hrest := ih (MAX hf app.control_socket)
      (fun v hv => hpre v (List.mem_cons_of_mem _ hv))
    rw [MAX_idem] at hrest
    rcases hw with ⟨h1, h2, h3, h4, h5⟩ | ⟨h1, h2, h3, h4, h5⟩
    · have h6 : w.read_ret ≠ 0 := by omega
      simp [main_loop_for, loop_body, msg_type_after_read, h1, h2, h3, h4, h5, h6,
        Run.after, hrest, MSG_CTL_NONE]
    · have h6 : w.read_ret ≠ 0 := by omega
      simp [main_loop_for, loop_body, msg_type_after_read, h1, h2, h3, h4, h5, h6,
        Run.after, hrest, MSG_CTL_NONE, MSG_CTL_STATUS]

theorem main_loop_waiting_of_delivers (k : Consts) (app : application)
    (listen_ret : Int) (pre : List Wakeup) (hl : listen_ret ≠ -1)
    (hpre : ∀ v ∈ pre, delivers v MSG_CTL_NONE ∨ delivers v MSG_CTL_STATUS) :
    (main_loop k app listen_ret pre).result
      = .waiting (MAX 0 app.control_socket + 1) := by
  simp [main_loop, hl, Run.after, main_loop_for_waiting_of_delivers k app 0 pre hpre]

/-! ## Claims about `main_loop` -/

/-- C1: after any sequence of connections that each deliver NONE or STATUS, a
connection that delivers QUIT makes `main_loop` return `EXIT_SUCCESS`; the calls
of the run are those of the earlier connections followed by the `select`,
`accept`, `read`, shutdown log and `close` of the QUIT connection, and nothing
after them, whatever wakeups would follow. -/
theorem C1_quit_returns_success (k : Consts) (app : application) (listen_ret : Int)
    (pre post : List Wakeup) (q : Wakeup) (hl : listen_ret ≠ -1)
    (hpre : ∀ v ∈ pre, delivers v MSG_CTL_NONE ∨ delivers v MSG_CTL_STATUS)
    (hq : delivers q MSG_CTL_QUIT) :
    (main_loop k app listen_ret (pre ++ q :: post)).result = .returned EXIT_SUCCESS ∧
    (main_loop k app listen_ret (pre ++ q :: post)).trace
      = (main_loop k app listen_ret pre).trace ++
        [.select (MAX 0 app.control_socket + 1) q.select_ret,
         .accept app.control_socket q.accept_ret,
         .read q.accept_ret q.read_ret,
         .log_info .shutting_down,
         .close q.accept_ret q.close_ret] := by
  have hw := main_loop_waiting_of_delivers k app listen_ret pre hl hpre
  rw [main_loop_append_waiting k app listen_ret pre (q :: post) _ hw]
  obtain ⟨h1, h2, h3, h4, h5⟩ := hq
  have h6 : q.read_ret ≠ 0 := by omega
  simp [main_loop_for, loop_body, msg_type_after_read, h1, h2, h3, h4, h5, h6,
    Run.after, MSG_CTL_NONE, MSG_CTL_STATUS, MSG_CTL_QUIT]

/-- C3: connections that all deliver NONE leave the application record as it
was, make exactly the calls `select`, `accept`, `read`, `close` per connection
(so nothing is written), and leave `main_loop` blocked in `select`, not returned. -/
theorem C3_none_connections_change_nothing (k : Consts) (app : application)
    (listen_ret : Int) (ws : List Wakeup) (hl : listen_ret ≠ -1)
    (hall : ∀ v ∈ ws, delivers v MSG_CTL_NONE) :
    (main_loop k app listen_ret ws).app = app ∧
    (main_loop k app listen_ret ws).trace
      = .listen app.control_socket k.MAX_PENDING_CONNECTIONS listen_ret
          :: ws.flatMap (quiet_pass app) ∧
    (∀ fd buf n r, Event.write fd buf n r ∉ (main_loop k app listen_ret ws).trace) ∧
    (main_loop k app listen_ret ws).result
      = .waiting (MAX 0 app.control_socket + 1) := by
  have htrace : (main_loop_for k app 0 ws).trace = ws.flatMap (quiet_pass app) := by
    induction ws with
    | nil => rfl
    | cons w ws ih =>
      obtain ⟨h1, h2, h3, h4, h5⟩ := hall w (List.mem_cons_self _ _)
      have h6 : w.read_ret ≠ 0 := by omega
      have hb : loop_body k app 0 w = (quiet_pass app w, none) := by
        simp [loop_body, msg_type_after_read, h1, h2, h3, h4, h5, h6, quiet_pass]
      rw [main_loop_for_cons_none k app 0 w ws _ hb]
      simp [Run.after, ih (fun v hv => hall v (List.mem_cons_of_mem _ hv))]
  have hres := main_loop_waiting_of_delivers k app listen_ret ws hl
    (fun v hv => Or.inl (hall v hv))
  have ht : (main_loop k app listen_ret ws).trace
      = .listen app.control_socket k.MAX_PENDING_CONNECTIONS listen_ret
          :: ws.flatMap (quiet_pass app) := by
    simp [main_loop, hl, Run.after, htrace]
  refine ⟨?_, ht, ?_, hres⟩
  · simp [main_loop, hl, Run.after, main_loop_for_app]
  · intro fd buf n r hmem
    rw [ht] at hmem
    simp [List.mem_flatMap, quiet_pass] at hmem

/-- C4: on an accepted connection whose `read` returns 0, whatever the command
buffer would have received, the pass makes exactly the calls `select`, `accept`,
`read`, `close` (no write, no log, no return) and the loop goes on with the next
`select`: with no further wakeup it is blocked there, not returned. -/
theorem C4_zero_byte_read_dispatches_nothing (k : Consts) (app : application)
    (listen_ret n : Int) (pre post : List Wakeup) (w : Wakeup)
    (hpre : (main_loop k app listen_ret pre).result = .waiting n)
    (hs : w.select_ret ≠ -1) (hi : w.fd_isset = true) (ha : w.accept_ret ≠ -1)
    (hr : w.read_ret = 0) :
    main_loop k app listen_ret (pre ++ w :: post)
      = (main_loop_for k app 0 post).after
          ((main_loop k app listen_ret pre).trace ++
            [.select (MAX 0 app.control_socket + 1) w.select_ret,
             .accept app.control_socket w.accept_ret,
             .read w.accept_ret 0,
             .close w.accept_ret w.close_ret]) ∧
    (main_loop k app listen_ret (pre ++ [w])).result
      = .waiting (MAX 0 app.control_socket + 1) := by
  have hb : loop_body k app 0 w = (quiet_pass app w, none) := by
    simp [loop_body, hs, hi, ha, hr, quiet_pass]
  constructor
  · rw [main_loop_append_waiting k app listen_ret pre (w :: post) n hpre,
      main_loop_for_cons_none k app 0 w post _ hb]
    simp [Run.after, quiet_pass, hr]
  · rw [main_loop_append_waiting k app listen_ret pre [w] n hpre,
      main_loop_for_cons_none k app 0 w [] _ hb]
    simp [Run.after, main_loop_for]

theorem closes_each_connection_once_body (k : Consts) (app : application) (hf : Int)
    (w : Wakeup) (rest : List Event) :
    closes_each_connection_once none ((loop_body k app hf w).1 ++ rest)
      = closes_each_connection_once none rest := by
  simp only [loop_body]
  split_ifs <;> simp_all [closes_each_connection_once]

theorem closes_each_connection_once_for (k : Consts) (app : application) (hf : Int)
    (ws : List Wakeup) :
    closes_each_connection_once none (main_loop_for k app hf ws).trace = true := by
  induction ws with
  | nil => rfl
  | cons w ws ih =>
    have hbody := closes_each_connection_once_body k app hf w
    rcases hb : loop_body k app hf w with ⟨es, _ | code⟩
    · rw [main_loop_for_cons_none k app hf w ws es hb]
      have := hbody (main_loop_for k app hf ws).trace
      rw [hb] at this
      simpa [Run.after, this] using ih
    · rw [main_loop_for_cons_some k app hf w ws es code hb]
      have := hbody []
      rw [hb] at this
      simpa [closes_each_connection_once] using this

/-- C5: in every run of `main_loop`, whatever `read` returns and whatever command
arrives, each descriptor returned by a successful `accept` is closed exactly once,
before the next `select` and before the run ends (by a return, or blocked in
`select`); no `close` is made without an open connection. -/
theorem C5_each_connection_closed_once (k : Consts) (app : application)
    (listen_ret : Int) (ws : List Wakeup) :
    closes_each_connection_once none (main_loop k app listen_ret ws).trace = true := by
  unfold main_loop
  split_ifs
  · simp [closes_each_connection_once]
  · simpa [Run.after, closes_each_connection_once]
      using closes_each_connection_once_for k app 0 ws

/-- C6: after any sequence of connections that each deliver NONE or STATUS, a
`select` that returns -1, or an `accept` that returns -1 once the control socket
is readable, makes `main_loop` return `EXIT_FAILURE`; the failing call is followed
by the error log only, whatever wakeups would follow. -/
theorem C6_select_or_accept_failure_returns_failure (k : Consts) (app : application)
    (listen_ret : Int) (pre post : List Wakeup) (w : Wakeup) (hl : listen_ret ≠ -1)
    (hpre : ∀ v ∈ pre, delivers v MSG_CTL_NONE ∨ delivers v MSG_CTL_STATUS)
    (hw : w.select_ret = -1 ∨
      (w.select_ret ≠ -1 ∧ w.fd_isset = true ∧ w.accept_ret = -1)) :
    (main_loop k app listen_ret (pre ++ w :: post)).result = .returned EXIT_FAILURE ∧
    (main_loop k app listen_ret (pre ++ w :: post)).trace
      = (main_loop k app listen_ret pre).trace ++
        (if w.select_ret = -1 then
          [.select (MAX 0 app.control_socket + 1) (-1), .log_error .unable_to_wait]
        else
          [.select (MAX 0 app.control_socket + 1) w.select_ret,
           .accept app.control_socket (-1), .log_error .unable_to_accept]) := by
  have hwait := main_loop_waiting_of_delivers k app listen_ret pre hl hpre
  rw [main_loop_append_waiting k app listen_ret pre (w :: post) _ hwait]
  rcases hw with h1 | ⟨h1, h2, h3⟩
  · simp [main_loop_for, loop_body, h1, Run.after]
  · simp [main_loop_for, loop_body, h1, h2, h3, Run.after]

/-! ## `main`: composition lemmas -/

theorem main_of_enters (k : Consts) (env : Env) (he : enters_main_loop env) :
    main k env =
      match (main_loop k (initial_application env) env.listen_ret env.wakeups).result with
      | .waiting _ =>
        ⟨startup_trace env ++ stale_trace env ++ allocate_trace env ++
          (main_loop k (initial_application env) env.listen_ret env.wakeups).trace, none⟩
      | .returned result =>
        ⟨startup_trace env ++ stale_trace env ++ allocate_trace env ++
          (main_loop k (initial_application env) env.listen_ret env.wakeups).trace ++
          (teardown env
            (main_loop k (initial_application env) env.listen_ret env.wakeups).app
            result).trace,
          (teardown env
            (main_loop k (initial_application env) env.listen_ret env.wakeups).app
            result).exit_code⟩ := by
  obtain ⟨h1, h2, h3, h4, h5⟩ := he
  unfold stale_removal_fails at h3
  unfold main
  simp only [h1, h2, h3, h4, h5]
  simp

theorem main_loop_app (k : Consts) (app : application) (listen_ret : Int)
    (ws : List Wakeup) : (main_loop k app listen_ret ws).app = app := by
  unfold main_loop
  split_ifs
  · rfl
  · simp [Run.after, main_loop_for_app]

/-! ## When the loop returns -/

theorem loop_body_of_continues (k : Consts) (app : application) (hf : Int)
    (w : Wakeup) (h : continues w) : (loop_body k app hf w).2 = none := by
  obtain ⟨h1, h2, h3⟩ := h
  simp only [loop_body, msg_type_after_read]
  simp only [delivers] at h3
  split_ifs <;> simp_all [MSG_CTL_NONE, MSG_CTL_QUIT]

theorem loop_body_of_quit (k : Consts) (app : application) (hf : Int)
    (w : Wakeup) (h : delivers w MSG_CTL_QUIT) :
    (loop_body k app hf w).2 = some EXIT_SUCCESS := by
  obtain ⟨h1, h2, h3, h4, h5⟩ := h
  have h6 : w.read_ret ≠ 0 := by omega
  simp [loop_body, msg_type_after_read, h1, h2, h3, h4, h5, h6, MSG_CTL_NONE,
    MSG_CTL_STATUS, MSG_CTL_QUIT]

theorem loop_body_of_failure (k : Consts) (app : application) (hf : Int)
    (w : Wakeup) (h1 : ¬ continues w) (h2 : ¬ delivers w MSG_CTL_QUIT) :
    (loop_body k app hf w).2 = some EXIT_FAILURE := by
  simp only [continues, delivers] at h1 h2
  simp only [loop_body, msg_type_after_read]
  split_ifs <;> simp_all [MSG_CTL_NONE, MSG_CTL_QUIT]

theorem main_loop_for_cons_continues (k : Consts) (app : application) (hf : Int)
    (w : Wakeup) (ws : List Wakeup) (h : continues w) :
    main_loop_for k app hf (w :: ws)
      = (main_loop_for k app hf ws).after (loop_body k app hf w).1 :=
  main_loop_for_cons_none k app hf w ws _
    (Prod.ext rfl (loop_body_of_continues k app hf w h))

theorem main_loop_for_waiting_of_continues (k : Consts) (app : application)
    (hf : Int) (pre : List Wakeup) (hpre : ∀ v ∈ pre, continues v) :
    (main_loop_for k app hf pre).result
      = .waiting (MAX hf app.control_socket + 1) := by
  induction pre with
  | nil => rfl
  | cons w pre ih =>
    rw [main_loop_for_cons_continues k app hf w pre (hpre w (List.mem_cons_self _ _))]
    simpa [Run.after] using ih (fun v hv => hpre v (List.mem_cons_of_mem _ hv))

/-- The loop returns `EXIT_SUCCESS` exactly when, after wakeups on which it
continues, a connection delivers QUIT. -/
theorem main_loop_for_success_iff (k : Consts) (app : application) (hf : Int)
    (ws : List Wakeup) :
    (main_loop_for k app hf ws).result = .returned EXIT_SUCCESS ↔
      ∃ pre q post, ws = pre ++ q :: post ∧ (∀ v ∈ pre, continues v) ∧
        delivers q MSG_CTL_QUIT := by
  constructor
  · intro h
    induction ws with
    | nil => simp [main_loop_for] at h
    | cons w ws ih =>
      by_cases hq : delivers w MSG_CTL_QUIT
      · exact ⟨[], w, ws, rfl, by simp, hq⟩
      · by_cases hc : continues w
        · rw [main_loop_for_cons_continues k app hf w ws hc] at h
          obtain ⟨pre, q, post, h1, h2, h3⟩ := ih (by simpa [Run.after] using h)
          refine ⟨w :: pre, q, post, by simp [h1], ?_, h3⟩
          intro v hv
          rcases List.mem_cons.1 hv with rfl | hv
          · exact hc
          · exact h2 v hv
        · have hb := loop_body_of_failure k app hf w hc hq
          rw [main_loop_for_cons_some k app hf w ws _ _ (Prod.ext rfl hb)] at h
          simp [EXIT_SUCCESS, EXIT_FAILURE] at h
  · rintro ⟨pre, q, post, rfl, h2, h3⟩
    rw [main_loop_for_append_waiting k app hf pre (q :: post) _
      (main_loop_for_waiting_of_continues k app hf pre h2),
      main_loop_for_cons_some k app hf q post _ _
        (Prod.ext rfl (loop_body_of_quit k app hf q h3))]
    rfl

theorem main_loop_success_iff (k : Consts) (app : application) (listen_ret : Int)
    (ws : List Wakeup) :
    (main_loop k app listen_ret ws).result = .returned EXIT_SUCCESS ↔
      ended_on_QUIT listen_ret ws := by
  unfold main_loop ended_on_QUIT
  by_cases hl : listen_ret = -1
  · simp [hl, EXIT_SUCCESS, EXIT_FAILURE]
  · simp only [hl, if_false, Run.after, ne_eq, not_false_eq_true, true_and]
    exact main_loop_for_success_iff k app 0 ws

theorem main_loop_for_returned_code (k : Consts) (app : application) (hf : Int)
    (ws : List Wakeup) (code : Int)
    (h : (main_loop_for k app hf ws).result = .returned code) :
    code = EXIT_SUCCESS ∨ code = EXIT_FAILURE := by
  induction ws with
  | nil => simp [main_loop_for] at h
  | cons w ws ih =>
    by_cases hq : delivers w MSG_CTL_QUIT
    · rw [main_loop_for_cons_some k app hf w ws _ _
        (Prod.ext rfl (loop_body_of_quit k app hf w hq))] at h
      left; simpa using h.symm
    · by_cases hc : continues w
      · rw [main_loop_for_cons_continues k app hf w ws hc] at h
        exact ih (by simpa [Run.after] using h)
      · rw [main_loop_for_cons_some k app hf w ws _ _
          (Prod.ext rfl (loop_body_of_failure k app hf w hc hq))] at h
        right; simpa using h.symm

/-- A call of `main_loop` that returns gives `EXIT_SUCCESS` or `EXIT_FAILURE`. -/
theorem main_loop_returned_code (k : Consts) (app : application) (listen_ret : Int)
    (ws : List Wakeup) (code : Int)
    (h : (main_loop k app listen_ret ws).result = .returned code) :
    code = EXIT_SUCCESS ∨ code = EXIT_FAILURE := by
  unfold main_loop at h
  by_cases hl : listen_ret = -1
  · right; simpa [hl] using h.symm
  · exact main_loop_for_returned_code k app 0 ws code (by simpa [hl, Run.after] using h)

/-! ## Claims about `main` -/

theorem teardown_exit_code (env : Env) (app : application) (result : Int) :
    (teardown env app result).exit_code
      = if env.unlink_ret = -1 ∨ env.close_ret = -1 then some EXIT_FAILURE
        else some result := by
  unfold teardown
  split_ifs <;> simp_all

theorem main_exit_code_of_not_enters (k : Consts) (env : Env)
    (he : ¬ enters_main_loop env) :
    (main k env).exit_code
      = if env.working_dir_malloc_ok = true ∧ env.daemonize_ret ≠ -1 ∧
            env.daemonize_ret ≠ 0 then some EXIT_SUCCESS
        else some EXIT_FAILURE := by
  unfold enters_main_loop stale_removal_fails at he
  unfold main
  split_ifs <;> simp_all

/-- C7: `main` exits with `EXIT_SUCCESS` or `EXIT_FAILURE`, unless it is still
blocked in the `select` of `main_loop`; it exits with `EXIT_SUCCESS` exactly when
`daemonize` returned a value other than -1 and 0 (the parent), or it returned 0,
stale-socket removal, allocation and `init_control_socket` succeeded, `main_loop`
ended on QUIT, and the final `unlink` and `close` both succeeded; a failing final
`unlink` or `close` after a clean QUIT gives `EXIT_FAILURE`. -/
theorem C7_exit_status (k : Consts) (env : Env) :
    ((main k env).exit_code = some EXIT_SUCCESS ∨
      (main k env).exit_code = some EXIT_FAILURE ∨
      ((main k env).exit_code = none ∧ enters_main_loop env ∧
        ∃ n, (main_loop k (initial_application env) env.listen_ret
          env.wakeups).result = .waiting n)) ∧
    ((main k env).exit_code = some EXIT_SUCCESS ↔
      (env.working_dir_malloc_ok = true ∧ env.daemonize_ret ≠ -1 ∧
        env.daemonize_ret ≠ 0) ∨
      (enters_main_loop env ∧ ended_on_QUIT env.listen_ret env.wakeups ∧
        env.unlink_ret ≠ -1 ∧ env.close_ret ≠ -1)) ∧
    (enters_main_loop env → ended_on_QUIT env.listen_ret env.wakeups →
      env.unlink_ret = -1 ∨ env.close_ret = -1 →
      (main k env).exit_code = some EXIT_FAILURE) := by
  by_cases he : enters_main_loop env
  · have hd : env.daemonize_ret = 0 := he.2.1
    have hq := main_loop_success_iff k (initial_application env) env.listen_ret
      env.wakeups
    rw [main_of_enters k env he]
    cases hres : (main_loop k (initial_application env) env.listen_ret
        env.wakeups).result with
    | waiting n =>
      rw [hres] at hq
      have hnq : ¬ ended_on_QUIT env.listen_ret env.wakeups := by
        rw [← hq]; simp
      simp [he, hd, hnq]
    | returned code =>
      rw [hres] at hq
      have hcode := main_loop_returned_code k _ _ _ code hres
      have hq2 : code = EXIT_SUCCESS ↔ ended_on_QUIT env.listen_ret env.wakeups := by
        rw [← hq]; simp
      simp only [teardown_exit_code]
      by_cases hu : env.unlink_ret = -1
      · simp [hu, hd, EXIT_SUCCESS, EXIT_FAILURE]
      · by_cases hc : env.close_ret = -1
        · simp [hc, hd, EXIT_SUCCESS, EXIT_FAILURE]
        · rcases hcode with h0 | h1
          · have := hq2.1 h0
            simp [hu, hc, hd, he, h0, this]
          · have hne : ¬ ended_on_QUIT env.listen_ret env.wakeups := by
              rw [← hq2, h1]; simp [EXIT_SUCCESS, EXIT_FAILURE]
            simp [hu, hc, hd, he, h1, hne, EXIT_SUCCESS, EXIT_FAILURE]
  · rw [main_exit_code_of_not_enters k env he]
    by_cases hp : env.working_dir_malloc_ok = true ∧ env.daemonize_ret ≠ -1 ∧
        env.daemonize_ret ≠ 0
    · simp [hp, he]
    · simp [hp, he, EXIT_SUCCESS, EXIT_FAILURE]

/-- C10: when `main` has entered `main_loop` and `main_loop` returns, with whatever
result, the calls `main` makes afterwards contain exactly one `unlink` and one
`close` of the control socket descriptor, the `unlink` first, whatever the
`unlink` returns, and they end with `exit`. -/
theorem C10_teardown_unlink_then_close (k : Consts) (env : Env) (code : Int)
    (he : enters_main_loop env)
    (hr : (main_loop k (initial_application env) env.listen_ret env.wakeups).result
      = .returned code) :
    ∃ down : List Event,
      (main k env).trace
        = startup_trace env ++ stale_trace env ++ allocate_trace env ++
          (main_loop k (initial_application env) env.listen_ret env.wakeups).trace ++
          down ∧
      down.filter Event.is_unlink_or_close
        = [.unlink env.unlink_ret,
           .close env.init_control_socket_ret env.close_ret] ∧
      ∃ c, down.getLast? = some (.exit c) := by
  rw [main_of_enters k env he, hr]
  refine ⟨_, rfl, ?_⟩
  rw [main_loop_app]
  unfold teardown
  split_ifs <;>
    simp [close_error_out, free_error_out, error_out, Event.is_unlink_or_close,
      initial_application, List.filter]

theorem loop_body_write (k : Consts) (app : application) (hf : Int) (w : Wakeup)
    (fd : Int) (buf : application) (n : Nat) (r : Int)
    (h : Event.write fd buf n r ∈ (loop_body k app hf w).1) :
    buf = app ∧ n = k.sizeof_application := by
  simp only [loop_body] at h
  split_ifs at h <;> simp_all

theorem main_loop_for_write (k : Consts) (app : application) (hf : Int)
    (ws : List Wakeup) (fd : Int) (buf : application) (n : Nat) (r : Int)
    (h : Event.write fd buf n r ∈ (main_loop_for k app hf ws).trace) :
    buf = app ∧ n = k.sizeof_application := by
  induction ws with
  | nil => simp [main_loop_for] at h
  | cons w ws ih =>
    rcases hb : loop_body k app hf w with ⟨es, _ | code⟩
    · rw [main_loop_for_cons_none k app hf w ws es hb] at h
      simp only [Run.after, List.mem_append] at h
      rcases h with h | h
      · exact loop_body_write k app hf w fd buf n r (by rw [hb]; exact h)
      · exact ih h
    · rw [main_loop_for_cons_some k app hf w ws es code hb] at h
      exact loop_body_write k app hf w fd buf n r (by rw [hb]; exact h)

theorem main_loop_write (k : Consts) (app : application) (listen_ret : Int)
    (ws : List Wakeup) (fd : Int) (buf : application) (n : Nat) (r : Int)
    (h : Event.write fd buf n r ∈ (main_loop k app listen_ret ws).trace) :
    buf = app ∧ n = k.sizeof_application := by
  unfold main_loop at h
  split_ifs at h
  · simp at h
  · simp only [Run.after, List.singleton_append, List.mem_cons] at h
    rcases h with h | h
    · cases h
    · exact main_loop_for_write k app 0 ws fd buf n r h

/-- Every `write` of `main` is one of `main_loop`. -/
theorem main_write_mem (k : Consts) (env : Env) (fd : Int) (buf : application)
    (n : Nat) (r : Int) (h : Event.write fd buf n r ∈ (main k env).trace) :
    Event.write fd buf n r ∈
      (main_loop k (initial_application env) env.listen_ret env.wakeups).trace := by
  by_cases he : enters_main_loop env
  · rw [main_of_enters k env he] at h
    cases hres : (main_loop k (initial_application env) env.listen_ret
        env.wakeups).result with
    | waiting m =>
      rw [hres] at h
      simp only [startup_trace, stale_trace, allocate_trace] at h
      split_ifs at h <;> simpa using h
    | returned code =>
      rw [hres] at h
      simp only [startup_trace, stale_trace, allocate_trace, teardown,
        close_error_out, free_error_out, error_out] at h
      split_ifs at h <;> simpa using h
  · exfalso
    unfold enters_main_loop stale_removal_fails at he
    unfold main at h
    simp only [startup_trace, stale_trace, allocate_trace, free_error_out,
      error_out] at h
    split_ifs at h <;> simp_all

/-- C2: when a connection delivers STATUS, `main_loop` calls `write` on that
connection with the application record it was given and the count
`sizeof(struct application)`; in a run of `main` that `write` is made, and every
`write` of the run carries the same record, whose fields are the result of
`getpid`, the time taken at the start of `main` and the result of
`init_control_socket`. -/
theorem C2_status_reply_is_the_record (k : Consts) (env : Env)
    (pre post : List Wakeup) (w : Wakeup) (he : enters_main_loop env)
    (hl : env.listen_ret ≠ -1) (hws : env.wakeups = pre ++ w :: post)
    (hpre : ∀ v ∈ pre, continues v) (hw : delivers w MSG_CTL_STATUS) :
    (∀ app : application,
      (main_loop k app env.listen_ret (pre ++ [w])).trace
        = (main_loop k app env.listen_ret pre).trace ++
          [.select (MAX 0 app.control_socket + 1) w.select_ret,
           .accept app.control_socket w.accept_ret,
           .read w.accept_ret w.read_ret,
           .write w.accept_ret app k.sizeof_application w.write_ret,
           .close w.accept_ret w.close_ret]) ∧
    Event.write w.accept_ret
        ⟨env.getpid_ret, env.time_ret, env.init_control_socket_ret⟩
        k.sizeof_application w.write_ret ∈ (main k env).trace ∧
    ∀ fd buf n r, Event.write fd buf n r ∈ (main k env).trace →
      buf = ⟨env.getpid_ret, env.time_ret, env.init_control_socket_ret⟩ ∧
        n = k.sizeof_application := by
  obtain ⟨h1, h2, h3, h4, h5⟩ := hw
  have h6 : w.read_ret ≠ 0 := by omega
  have hbody : ∀ app : application, loop_body k app 0 w
      = ([.select (MAX 0 app.control_socket + 1) w.select_ret,
           .accept app.control_socket w.accept_ret,
           .read w.accept_ret w.read_ret,
           .write w.accept_ret app k.sizeof_application w.write_ret,
           .close w.accept_ret w.close_ret], none) := by
    intro app
    simp [loop_body, msg_type_after_read, h1, h2, h3, h4, h5, h6, MSG_CTL_NONE,
      MSG_CTL_STATUS]
  have hwait : ∀ app : application, (main_loop k app env.listen_ret pre).result
      = .waiting (MAX 0 app.control_socket + 1) := by
    intro app
    simp [main_loop, hl, Run.after, main_loop_for_waiting_of_continues k app 0 pre hpre]
  have hrun : ∀ (app : application) (rest : List Wakeup),
      (main_loop k app env.listen_ret (pre ++ w :: rest)).trace
        = (main_loop k app env.listen_ret pre).trace ++
          ([.select (MAX 0 app.control_socket + 1) w.select_ret,
           .accept app.control_socket w.accept_ret,
           .read w.accept_ret w.read_ret,
           .write w.accept_ret app k.sizeof_application w.write_ret,
           .close w.accept_ret w.close_ret] ++ (main_loop_for k app 0 rest).trace) := by
    intro app rest
    rw [main_loop_append_waiting k app env.listen_ret pre (w :: rest) _ (hwait app),
      main_loop_for_cons_none k app 0 w rest _ (hbody app)]
    simp [Run.after]
  refine ⟨?_, ?_, ?_⟩
  · intro app
    rw [hrun app []]
    simp [main_loop_for]
  · have hmem : Event.write w.accept_ret (initial_application env)
        k.sizeof_application w.write_ret ∈
        (main_loop k (initial_application env) env.listen_ret env.wakeups).trace := by
      rw [hws, hrun]
      simp
    have hmain : ∀ e, e ∈ (main_loop k (initial_application env) env.listen_ret
        env.wakeups).trace → e ∈ (main k env).trace := by
      intro e hin
      rw [main_of_enters k env he]
      cases (main_loop k (initial_application env) env.listen_ret env.wakeups).result
        <;> simp [hin]
    exact hmain _ hmem
  · intro fd buf n r hin
    exact main_loop_write k _ _ _ fd buf n r (main_write_mem k env fd buf n r hin)

/-- C8 (amended): in the child, a failing removal of the stale control socket makes
`main` exit with `EXIT_FAILURE` before the application record is allocated; a
failing `init_control_socket` makes it exit with `EXIT_FAILURE` after the record
has been allocated, and the record is freed on the way out; in both cases
`main_loop` is not entered (no `listen` is made). -/
theorem C8_startup_failures_abort (k : Consts) (env : Env)
    (hwd : env.working_dir_malloc_ok = true) (hd : env.daemonize_ret = 0) :
    (stale_removal_fails env →
      (main k env).exit_code = some EXIT_FAILURE ∧
      (∀ ok, Event.malloc .application ok ∉ (main k env).trace) ∧
      (∀ fd b r, Event.listen fd b r ∉ (main k env).trace)) ∧
    (¬ stale_removal_fails env → env.malloc_ok = true →
      env.init_control_socket_ret = -1 →
      (main k env).exit_code = some EXIT_FAILURE ∧
      record_allocated_before (.init_control_socket (-1)) (main k env).trace = true ∧
      (main k env).trace
        = startup_trace env ++ stale_trace env ++
          [.malloc .application true, .getpid env.getpid_ret,
           .init_control_socket (-1), .free .application, .free .working_dir,
           .close_log, .exit EXIT_FAILURE] ∧
      (∀ fd b r, Event.listen fd b r ∉ (main k env).trace)) := by
  constructor
  · intro hs
    have hs2 := hs
    unfold stale_removal_fails at hs2
    unfold main
    simp [hwd, hd, hs2, startup_trace, stale_trace, error_out]
  · intro hs hm hi
    have hs2 := hs
    unfold stale_removal_fails at hs2
    have hmain : main k env
        = ⟨startup_trace env ++ stale_trace env ++ allocate_trace env ++ free_error_out,
            some EXIT_FAILURE⟩ := by
      unfold main
      rw [if_neg (by simp [hwd]), if_neg (by simp [hd]), if_neg (by simp [hd]),
        if_neg hs2, if_neg (by simp [hm]), if_pos hi]
    rw [hmain]
    simp only [startup_trace, stale_trace, allocate_trace, free_error_out, error_out,
      record_allocated_before, hi]
    split_ifs <;> simp [List.takeWhile]

/-- C8, the statement as written fails: with `init_control_socket` returning -1
the application record is already allocated when the failing call is made. -/
theorem C8_record_allocated_at_bind_failure :
    bind_failure_env.init_control_socket_ret = -1 ∧
    (main sample_consts bind_failure_env).exit_code = some EXIT_FAILURE ∧
    record_allocated_before (.init_control_socket (-1))
      (main sample_consts bind_failure_env).trace = true := by
  decide

/-! ## Checked and unchecked failures -/

theorem halts_after_failure_split (cs : Int) (tr pre post : List Event) (e : Event)
    (h : halts_after_failure cs tr = true) (htr : tr = pre ++ e :: post)
    (hf : checked_failure cs e = true) : ∀ x ∈ post, serves x = false := by
  induction pre generalizing tr with
  | nil =>
    subst htr
    simp only [List.nil_append, halts_after_failure, hf, Bool.not_true, Bool.false_or,
      Bool.and_eq_true, List.all_eq_true] at h
    intro x hx
    simpa using h.1 x hx
  | cons a pre ih =>
    subst htr
    simp only [List.cons_append, halts_after_failure, Bool.and_eq_true] at h
    exact ih _ h.2 rfl

theorem halts_after_failure_append_of_clean (cs : Int) (a b : List Event)
    (ha : ∀ x ∈ a, checked_failure cs x = false) :
    halts_after_failure cs (a ++ b) = halts_after_failure cs b := by
  induction a with
  | nil => rfl
  | cons x a ih =>
    have hx := ha x (List.mem_cons_self _ _)
    simp [halts_after_failure, hx, ih (fun y hy => ha y (List.mem_cons_of_mem _ hy))]

theorem halts_after_failure_append (cs : Int) (a b : List Event)
    (ha : halts_after_failure cs a = true) (hb : halts_after_failure cs b = true)
    (hs : ∀ x ∈ b, serves x = false) :
    halts_after_failure cs (a ++ b) = true := by
  induction a with
  | nil => simpa using hb
  | cons x a ih =>
    simp only [halts_after_failure, Bool.and_eq_true, Bool.or_eq_true,
      List.all_eq_true, List.cons_append, List.mem_append] at ha ⊢
    refine ⟨?_, ih ha.2⟩
    rcases ha.1 with h | h
    · exact Or.inl h
    · right
      intro y hy
      have hy2 : y ∈ a ++ b := hy
      rcases List.mem_append.1 hy2 with hy | hy
      · exact h y hy
      · simp [hs y hy]

theorem loop_body_checked (k : Consts) (app : application) (hf : Int) (w : Wakeup)
    (hfd : w.accept_ret ≠ app.control_socket) :
    halts_after_failure app.control_socket (loop_body k app hf w).1 = true ∧
    ((loop_body k app hf w).2 = none →
      ∀ x ∈ (loop_body k app hf w).1, checked_failure app.control_socket x = false) ∧
    ((∃ x ∈ (loop_body k app hf w).1, checked_failure app.control_socket x = true) →
      (loop_body k app hf w).2 = some EXIT_FAILURE) := by
  have hfd2 : ¬ (w.accept_ret = app.control_socket) := hfd
  simp only [loop_body]
  split_ifs <;>
    simp [*, halts_after_failure, checked_failure, serves, EXIT_SUCCESS, EXIT_FAILURE]

theorem main_loop_for_checked (k : Consts) (app : application) (hf : Int)
    (ws : List Wakeup) (hfd : ∀ w ∈ ws, w.accept_ret ≠ app.control_socket) :
    halts_after_failure app.control_socket (main_loop_for k app hf ws).trace = true ∧
    ((∃ x ∈ (main_loop_for k app hf ws).trace,
        checked_failure app.control_socket x = true) →
      (main_loop_for k app hf ws).result = .returned EXIT_FAILURE) := by
  induction ws with
  | nil => simp [main_loop_for, halts_after_failure]
  | cons w ws ih =>
    obtain ⟨b1, b2, b3⟩ := loop_body_checked k app hf w (hfd w (List.mem_cons_self _ _))
    obtain ⟨i1, i2⟩ := ih (fun v hv => hfd v (List.mem_cons_of_mem _ hv))
    rcases hb : loop_body k app hf w with ⟨es, _ | code⟩
    · rw [hb] at b1 b2 b3
      rw [main_loop_for_cons_none k app hf w ws es hb]
      simp only [Run.after]
      refine ⟨?_, ?_⟩
      · rw [halts_after_failure_append_of_clean _ _ _ (b2 rfl)]
        exact i1
      · rintro ⟨x, hx, hxf⟩
        rcases List.mem_append.1 hx with hx | hx
        · simp [b2 rfl x hx] at hxf
        · exact i2 ⟨x, hx, hxf⟩
    · rw [hb] at b1 b2 b3
      rw [main_loop_for_cons_some k app hf w ws es code hb]
      refine ⟨b1, ?_⟩
      intro hx
      have := b3 hx
      simp only [Option.some.injEq] at this
      simp [this]

theorem main_loop_checked (k : Consts) (app : application) (listen_ret : Int)
    (ws : List Wakeup) (hfd : ∀ w ∈ ws, w.accept_ret ≠ app.control_socket) :
    halts_after_failure app.control_socket (main_loop k app listen_ret ws).trace = true ∧
    ((∃ x ∈ (main_loop k app listen_ret ws).trace,
        checked_failure app.control_socket x = true) →
      (main_loop k app listen_ret ws).result = .returned EXIT_FAILURE) := by
  obtain ⟨i1, i2⟩ := main_loop_for_checked k app 0 ws hfd
  unfold main_loop
  by_cases hl : listen_ret = -1
  · simp [hl, halts_after_failure, checked_failure, serves]
  · simp only [hl, if_false, Run.after, List.singleton_append, List.mem_cons]
    refine ⟨?_, ?_⟩
    · simp [halts_after_failure, checked_failure, hl, i1]
    · rintro ⟨x, hx | hx, hxf⟩
      · subst hx
        simp [checked_failure, hl] at hxf
      · exact i2 ⟨x, hx, hxf⟩

theorem startup_clean (env : Env) (cs : Int) (he : enters_main_loop env) :
    ∀ x ∈ startup_trace env ++ stale_trace env ++ allocate_trace env,
      checked_failure cs x = false := by
  obtain ⟨-, h2, h3, -, h5⟩ := he
  unfold stale_removal_fails at h3
  intro x hx
  simp only [startup_trace, stale_trace, allocate_trace] at hx
  split_ifs at hx with ha
  · have hu : ¬ env.unlink_stale_ret = -1 := fun hu => h3 ⟨ha, hu⟩
    simp only [List.cons_append, List.nil_append, List.mem_cons, List.mem_singleton,
      List.not_mem_nil, or_false] at hx
    rcases hx with rfl | rfl | rfl | rfl | rfl | rfl | rfl | rfl | rfl <;>
      simp [checked_failure, h2, hu, h5]
  · simp only [List.cons_append, List.nil_append, List.mem_cons, List.mem_singleton,
      List.not_mem_nil, or_false] at hx
    rcases hx with rfl | rfl | rfl | rfl | rfl | rfl | rfl | rfl <;>
      simp [checked_failure, h2, h5]

theorem teardown_checked (env : Env) (app : application) (result cs : Int) :
    halts_after_failure cs (teardown env app result).trace = true ∧
    (∀ x ∈ (teardown env app result).trace, serves x = false) ∧
    ((∃ x ∈ (teardown env app result).trace, checked_failure cs x = true) →
      (teardown env app result).exit_code = some EXIT_FAILURE) := by
  unfold teardown
  split_ifs <;>
    simp [*, halts_after_failure, checked_failure, serves, close_error_out,
      free_error_out, error_out]

theorem main_of_not_enters (k : Consts) (env : Env) (he : ¬ enters_main_loop env) :
    main k env = ⟨[.time env.time_ret, .init_log, .malloc .working_dir false,
        .log_error .unable_to_allocate_working_dir, .close_log,
        .exit EXIT_FAILURE], some EXIT_FAILURE⟩ ∨
    (env.daemonize_ret = -1 ∧ main k env =
      ⟨startup_trace env ++ .log_error .unable_to_daemonize :: error_out,
        some EXIT_FAILURE⟩) ∨
    (env.daemonize_ret ≠ -1 ∧ main k env =
      ⟨startup_trace env ++ [.close_log, .free .working_dir, .exit EXIT_SUCCESS],
        some EXIT_SUCCESS⟩) ∨
    (env.daemonize_ret = 0 ∧ stale_removal_fails env ∧ main k env =
      ⟨startup_trace env ++ stale_trace env ++
        .log_error .unable_to_remove_previous_control_socket :: error_out,
        some EXIT_FAILURE⟩) ∨
    (env.daemonize_ret = 0 ∧ ¬ stale_removal_fails env ∧ main k env =
      ⟨startup_trace env ++ stale_trace env ++
        [.malloc .application false, .log_error .unable_to_allocate_application]
        ++ error_out, some EXIT_FAILURE⟩) ∨
    (env.daemonize_ret = 0 ∧ ¬ stale_removal_fails env ∧
      env.init_control_socket_ret = -1 ∧ main k env =
      ⟨startup_trace env ++ stale_trace env ++ allocate_trace env ++ free_error_out,
        some EXIT_FAILURE⟩) := by
  unfold enters_main_loop at he
  unfold stale_removal_fails at he ⊢
  unfold main
  split_ifs <;> simp_all

theorem main_checked (k : Consts) (env : Env)
    (hfd : ∀ w ∈ env.wakeups, w.accept_ret ≠ env.init_control_socket_ret) :
    halts_after_failure env.init_control_socket_ret (main k env).trace = true ∧
    ((∃ x ∈ (main k env).trace,
        checked_failure env.init_control_socket_ret x = true) →
      (main k env).exit_code = some EXIT_FAILURE) := by
  by_cases he : enters_main_loop env
  · obtain ⟨i1, i2⟩ := main_loop_checked k (initial_application env) env.listen_ret
      env.wakeups hfd
    have hclean := startup_clean env env.init_control_socket_ret he
    have hcs : (initial_application env).control_socket
        = env.init_control_socket_ret := rfl
    rw [hcs] at i1 i2
    rw [main_of_enters k env he]
    cases hres : (main_loop k (initial_application env) env.listen_ret
        env.wakeups).result with
    | waiting n =>
      simp only
      refine ⟨?_, ?_⟩
      · rw [halts_after_failure_append_of_clean _ _ _ hclean]
        exact i1
      · rintro ⟨x, hx, hxf⟩
        rcases List.mem_append.1 hx with hx | hx
        · simp [hclean x hx] at hxf
        · have := i2 ⟨x, hx, hxf⟩
          rw [hres] at this
          simp at this
    | returned code =>
      obtain ⟨t1, t2, t3⟩ := teardown_checked env
        (main_loop k (initial_application env) env.listen_ret env.wakeups).app code
        env.init_control_socket_ret
      simp only
      refine ⟨?_, ?_⟩
      · rw [List.append_assoc, halts_after_failure_append_of_clean _ _ _ hclean]
        exact halts_after_failure_append _ _ _ i1 t1 t2
      · rintro ⟨x, hx, hxf⟩
        rcases List.mem_append.1 hx with hx | hx
        · rcases List.mem_append.1 hx with hx | hx
          · simp [hclean x hx] at hxf
          · have := i2 ⟨x, hx, hxf⟩
            rw [hres] at this
            simp only [LoopResult.returned.injEq] at this
            rw [teardown_exit_code, this]
            simp
        · exact t3 ⟨x, hx, hxf⟩
  · rcases main_of_not_enters k env he with h | ⟨hd, h⟩ | ⟨hd, h⟩ | ⟨hd, hs, h⟩ |
      ⟨hd, hs, h⟩ | ⟨hd, hs, hi, h⟩ <;> rw [h]
    · simp [halts_after_failure, checked_failure, serves]
    · simp [halts_after_failure, checked_failure, serves, startup_trace, error_out]
    · simp [halts_after_failure, checked_failure, serves, startup_trace, hd]
    · simp only [startup_trace, stale_trace, error_out]
      split_ifs <;> simp [halts_after_failure, checked_failure, serves]
    · simp only [startup_trace, stale_trace, error_out]
      split_ifs <;> simp [halts_after_failure, checked_failure, serves]
    · simp only [startup_trace, stale_trace, allocate_trace, free_error_out, error_out]
      split_ifs <;> simp [halts_after_failure, checked_failure, serves]

/-- C9 (amended): provided `accept` never returns the number of the control socket
descriptor, whenever `malloc`, `daemonize`, `unlink`, `init_control_socket`, `listen`,
`select`, `accept` or the `close` of the control socket fails, `main` exits with
`EXIT_FAILURE`, and no `select`, `accept`, `read` or `write` is made after the
failing call.  The results of `read`, of the `write` of the STATUS reply and of
`close` on a connection are not tested: on every accepted connection that does
not deliver QUIT, whatever these calls return (-1 included), the pass is
`select`, `accept`, `read`, the `write` if STATUS was delivered, and `close`, and
the loop goes on with the next `select`; on every connection that delivers QUIT,
`main_loop` returns `EXIT_SUCCESS` whatever `close` returns. -/
theorem C9_tested_and_untested_results (k : Consts) :
    (∀ (env : Env) (pre post : List Event) (e : Event),
      (∀ w ∈ env.wakeups, w.accept_ret ≠ env.init_control_socket_ret) →
      (main k env).trace = pre ++ e :: post →
      checked_failure env.init_control_socket_ret e = true →
      (main k env).exit_code = some EXIT_FAILURE ∧ ∀ x ∈ post, serves x = false) ∧
    (∀ (app : application) (listen_ret n : Int) (pre post : List Wakeup) (w : Wakeup),
      (main_loop k app listen_ret pre).result = .waiting n →
      w.select_ret ≠ -1 → w.fd_isset = true → w.accept_ret ≠ -1 →
      (¬ delivers w MSG_CTL_QUIT →
        main_loop k app listen_ret (pre ++ w :: post)
          = (main_loop_for k app 0 post).after
              ((main_loop k app listen_ret pre).trace ++
                ([.select (MAX 0 app.control_socket + 1) w.select_ret,
                  .accept app.control_socket w.accept_ret,
                  .read w.accept_ret w.read_ret] ++
                 (if delivers w MSG_CTL_STATUS then
                    [.write w.accept_ret app k.sizeof_application w.write_ret]
                  else []) ++
                 [.close w.accept_ret w.close_ret]))) ∧
      (delivers w MSG_CTL_QUIT →
        (main_loop k app listen_ret (pre ++ w :: post)).result
            = .returned EXIT_SUCCESS ∧
        (main_loop k app listen_ret (pre ++ w :: post)).trace
            = (main_loop k app listen_ret pre).trace ++
              [.select (MAX 0 app.control_socket + 1) w.select_ret,
               .accept app.control_socket w.accept_ret,
               .read w.accept_ret w.read_ret,
               .log_info .shutting_down,
               .close w.accept_ret w.close_ret])) := by
  constructor
  · intro env pre post e hfd htr hf
    obtain ⟨m1, m2⟩ := main_checked k env hfd
    refine ⟨m2 ⟨e, ?_, hf⟩, halts_after_failure_split _ _ pre post e m1 htr hf⟩
    rw [htr]
    simp
  · intro app listen_ret n pre post w hpre hs hi ha
    constructor
    · intro hq
      by_cases hst : delivers w MSG_CTL_STATUS
      · rw [if_pos hst]
        obtain ⟨h1, h2, h3, h4, h5⟩ := hst
        have h6 : w.read_ret ≠ 0 := by omega
        have hb : loop_body k app 0 w
            = ([.select (MAX 0 app.control_socket + 1) w.select_ret,
                 .accept app.control_socket w.accept_ret,
                 .read w.accept_ret w.read_ret,
                 .write w.accept_ret app k.sizeof_application w.write_ret,
                 .close w.accept_ret w.close_ret], none) := by
          simp [loop_body, msg_type_after_read, h1, h2, h3, h4, h5, h6, MSG_CTL_NONE,
            MSG_CTL_STATUS]
        rw [main_loop_append_waiting k app listen_ret pre (w :: post) n hpre,
          main_loop_for_cons_none k app 0 w post _ hb]
        simp [Run.after]
      · rw [if_neg hst]
        have hb : loop_body k app 0 w = (quiet_pass app w, none) := by
          simp only [delivers] at hst hq
          simp only [loop_body, msg_type_after_read, quiet_pass]
          split_ifs <;> simp_all [MSG_CTL_NONE, MSG_CTL_STATUS, MSG_CTL_QUIT]
        rw [main_loop_append_waiting k app listen_ret pre (w :: post) n hpre,
          main_loop_for_cons_none k app 0 w post _ hb]
        simp [Run.after, quiet_pass]
    · intro hq
      rw [main_loop_append_waiting k app listen_ret pre (w :: post) n hpre]
      obtain ⟨h1, h2, h3, h4, h5⟩ := hq
      have h6 : w.read_ret ≠ 0 := by omega
      simp [main_loop_for, loop_body, msg_type_after_read, h1, h2, h3, h4, h5, h6,
        Run.after, MSG_CTL_NONE, MSG_CTL_STATUS, MSG_CTL_QUIT]

/-- C9, the statement as written fails: `read` returns -1 on the first connection,
the `write` of the STATUS reply returns -1 on the second, the `close` of the third
connection returns -1; each time the loop goes on to the next connection, and
after QUIT the process exits with `EXIT_SUCCESS`. -/
theorem C9_unchecked_failures_are_ignored :
    (main sample_consts unchecked_failures_env).exit_code = some EXIT_SUCCESS ∧
    (main sample_consts unchecked_failures_env).trace
      = [.time 1700000000, .init_log, .malloc .working_dir true, .daemonize 0,
         .access 0, .unlink 0, .malloc .application true, .getpid 4242,
         .init_control_socket 3, .listen 3 5 0,
         .select 4 1, .accept 3 5, .read 5 (-1), .close 5 0,
         .select 4 1, .accept 3 6, .read 6 4,
         .write 6 ⟨4242, 1700000000, 3⟩ 24 (-1), .close 6 0,
         .select 4 1, .accept 3 8, .read 8 4, .close 8 (-1),
         .select 4 1, .accept 3 7, .read 7 4, .log_info .shutting_down, .close 7 0,
         .unlink 0, .close 3 0, .close_log, .free .working_dir, .free .application,
         .exit 0] := by
  decide

/-! ## The statements at concrete runs -/

/-- The discipline rejects a `select` made while a connection is open. -/
theorem closes_each_connection_once_rejects_leak :
    closes_each_connection_once none [.accept 3 5, .read 5 4, .select 4 1] = false := by
  decide

/-- The discipline rejects a second `close` of a connection. -/
theorem closes_each_connection_once_rejects_double_close :
    closes_each_connection_once none [.accept 3 5, .close 5 0, .close 5 0] = false := by
  decide

/-- The discipline rejects a connection left open at the end. -/
theorem closes_each_connection_once_rejects_open_at_end :
    closes_each_connection_once none [.accept 3 5, .read 5 4] = false := by
  decide

/-- C1 at a concrete run: NONE, STATUS, then QUIT, with one more wakeup pending. -/
theorem C1_quit_returns_success_witness :
    (main_loop sample_consts sample_application 0
      ([none_wakeup, status_wakeup] ++ quit_wakeup :: [none_wakeup])).result
      = .returned EXIT_SUCCESS :=
  (C1_quit_returns_success sample_consts sample_application 0
    [none_wakeup, status_wakeup] [none_wakeup] quit_wakeup (by decide) (by decide)
    (by decide)).1

/-- C2 at a concrete run of `main`: the STATUS reply carries the record of the run. -/
theorem C2_status_reply_is_the_record_witness :
    Event.write 6 ⟨4242, 1700000000, 3⟩ 24 24 ∈ (main sample_consts clean_env).trace :=
  (C2_status_reply_is_the_record sample_consts clean_env [none_wakeup] [quit_wakeup]
    status_wakeup (by decide) (by decide) rfl (by decide) (by decide)).2.1

/-- C3 at a concrete run: two NONE connections leave the loop blocked in `select`. -/
theorem C3_none_connections_change_nothing_witness :
    (main_loop sample_consts sample_application 0 [none_wakeup, none_wakeup]).result
      = .waiting (MAX 0 sample_application.control_socket + 1) :=
  (C3_none_connections_change_nothing sample_consts sample_application 0
    [none_wakeup, none_wakeup] (by decide) (by decide)).2.2.2

/-- C4 at a concrete run: `read` returns 0 where the buffer would have held QUIT. -/
theorem C4_zero_byte_read_dispatches_nothing_witness :
    (main_loop sample_consts sample_application 0
      ([none_wakeup] ++ [⟨1, true, 9, 0, MSG_CTL_QUIT, 0, 0⟩])).result
      = .waiting (MAX 0 sample_application.control_socket + 1) :=
  (C4_zero_byte_read_dispatches_nothing sample_consts sample_application 0 4
    [none_wakeup] [] ⟨1, true, 9, 0, MSG_CTL_QUIT, 0, 0⟩ (by decide) (by decide)
    (by decide) (by decide) (by decide)).2

/-- C6 at a concrete run: `accept` returns -1 after a NONE and a STATUS connection. -/
theorem C6_select_or_accept_failure_returns_failure_witness :
    (main_loop sample_consts sample_application 0
      ([none_wakeup, status_wakeup] ++ ⟨1, true, -1, 0, 0, 0, 0⟩ :: [quit_wakeup])).result
      = .returned EXIT_FAILURE :=
  (C6_select_or_accept_failure_returns_failure sample_consts sample_application 0
    [none_wakeup, status_wakeup] [quit_wakeup] ⟨1, true, -1, 0, 0, 0, 0⟩ (by decide)
    (by decide) (by decide)).1

/-- C7 at a concrete run: a clean QUIT followed by a failing `unlink`. -/
theorem C7_exit_status_witness :
    (main sample_consts unlink_failure_env).exit_code = some EXIT_FAILURE :=
  (C7_exit_status sample_consts unlink_failure_env).2.2 (by decide)
    ⟨by decide, [none_wakeup, status_wakeup], quit_wakeup, [], rfl, by decide,
      by decide⟩
    (Or.inl (by decide))

/-- C8 (amended) at two concrete runs: a failing stale removal and a failing bind. -/
theorem C8_startup_failures_abort_witness :
    (main sample_consts stale_failure_env).exit_code = some EXIT_FAILURE ∧
    (main sample_consts bind_failure_env).exit_code = some EXIT_FAILURE :=
  ⟨((C8_startup_failures_abort sample_consts stale_failure_env rfl rfl).1
      (by decide)).1,
    ((C8_startup_failures_abort sample_consts bind_failure_env rfl rfl).2
      (by decide) rfl rfl).1⟩

/-- C9 (amended) at concrete runs: `select` returns -1 after one NONE connection;
`read` returns -1 on a connection whose `close` also returns -1; the `write` of a
STATUS reply returns -1; `close` returns -1 on the QUIT connection. -/
theorem C9_tested_and_untested_results_witness :
    (main sample_consts select_failure_env).exit_code = some EXIT_FAILURE ∧
    main_loop sample_consts sample_application 0
        ([none_wakeup] ++ ⟨1, true, 5, -1, 0, 0, -1⟩ :: [quit_wakeup])
      = (main_loop_for sample_consts sample_application 0 [quit_wakeup]).after
          ((main_loop sample_consts sample_application 0 [none_wakeup]).trace ++
            ([.select (MAX 0 sample_application.control_socket + 1) 1,
              .accept sample_application.control_socket 5, .read 5 (-1)] ++
             (if delivers ⟨1, true, 5, -1, 0, 0, -1⟩ MSG_CTL_STATUS then
                [.write 5 sample_application sample_consts.sizeof_application 0]
              else []) ++
             [.close 5 (-1)])) ∧
    (main_loop sample_consts sample_application 0
        ([none_wakeup] ++ ⟨1, true, 6, 4, MSG_CTL_STATUS, -1, 0⟩ :: [quit_wakeup])).result
      = .returned EXIT_SUCCESS ∧
    (main_loop sample_consts sample_application 0
        ([none_wakeup] ++ ⟨1, true, 7, 4, MSG_CTL_QUIT, 0, -1⟩ :: [none_wakeup])).result
      = .returned EXIT_SUCCESS :=
  ⟨((C9_tested_and_untested_results sample_consts).1 select_failure_env
      [.time 1700000000, .init_log, .malloc .working_dir true, .daemonize 0,
        .access 0, .unlink 0, .malloc .application true, .getpid 4242,
        .init_control_socket 3, .listen 3 5 0,
        .select 4 1, .accept 3 5, .read 5 4, .close 5 0]
      [.log_error .unable_to_wait, .unlink 0, .close 3 0, .close_log,
        .free .working_dir, .free .application, .exit 1]
      (.select 4 (-1)) (by decide) (by decide) (by decide)).1,
    ((C9_tested_and_untested_results sample_consts).2 sample_application 0 4
      [none_wakeup] [quit_wakeup] ⟨1, true, 5, -1, 0, 0, -1⟩ (by decide) (by decide)
      (by decide) (by decide)).1 (by decide),
    by
      rw [((C9_tested_and_untested_results sample_consts).2 sample_application 0 4
        [none_wakeup] [quit_wakeup] ⟨1, true, 6, 4, MSG_CTL_STATUS, -1, 0⟩ (by decide)
        (by decide) (by decide) (by decide)).1 (by decide)]
      decide,
    (((C9_tested_and_untested_results sample_consts).2 sample_application 0 4
      [none_wakeup] [none_wakeup] ⟨1, true, 7, 4, MSG_CTL_QUIT, 0, -1⟩ (by decide)
      (by decide) (by decide) (by decide)).2 (by decide)).1⟩

/-- C10 at a concrete run: a clean QUIT followed by a failing `unlink`. -/
theorem C10_teardown_unlink_then_close_witness :
    ∃ down : List Event,
      (main sample_consts unlink_failure_env).trace
        = startup_trace unlink_failure_env ++ stale_trace unlink_failure_env ++
          allocate_trace unlink_failure_env ++
          (main_loop sample_consts (initial_application unlink_failure_env)
            unlink_failure_env.listen_ret unlink_failure_env.wakeups).trace ++
          down ∧
      down.filter Event.is_unlink_or_close
        = [.unlink unlink_failure_env.unlink_ret,
           .close unlink_failure_env.init_control_socket_ret
             unlink_failure_env.close_ret] ∧
      ∃ c, down.getLast? = some (.exit c) :=
  C10_teardown_unlink_then_close sample_consts unlink_failure_env EXIT_SUCCESS
    (by decide) (by decide)

end DaemonSkeleton
